import Mathlib

/-!
Verification of the BigBeard template indexing pipeline.

Shallow embedding of the indexing scripts:
  * `scripts/generate_embeddings.py`   (namespace `GE`)
  * `scripts/process_existing_templates.py` (namespace `PET`)
  * `scripts/validate_template.py`     (namespace `VT`)

Python dictionaries with optional keys are modelled as structures with
`Option` fields (`none` = key absent); `dict.get(k, d)` becomes
`Option.getD`.  Keys whose absent/empty-string (or absent/empty-list)
distinction is never observed by the code are modelled directly as
`String`/`List String` with the `get` default as the structure default.
Embedding vectors are opaque to the pipeline (no arithmetic is ever done
on their components), so their components are modelled as `Int`.
Wall-clock timestamps (`datetime.utcnow().isoformat()`) are passed in
explicitly as a `now : String` parameter.  The S3 bucket and the DynamoDB
table are modelled as function stores `String → Option _` keyed exactly
as the code keys them, with `put_object`/`put_item` as overwrite-by-key.
-/

set_option maxRecDepth 100000

/-- Check that one character list starts with another. -/
def charsPrefixOf : List Char → List Char → Bool
  | [], _ => true
  | _ :: _, [] => false
  | c :: cs, d :: ds => c == d && charsPrefixOf cs ds

/-- Check that the first character list occurs contiguously in the second. -/
def charsInfixOf : List Char → List Char → Bool
  | needle, [] => charsPrefixOf needle []
  | needle, d :: ds => charsPrefixOf needle (d :: ds) || charsInfixOf needle ds

/-- Model of the Python substring test `needle in hay`. -/
def strContains (hay needle : String) : Bool :=
  charsInfixOf needle.data hay.data

/-- Python `dict.get(k, d)` on a string-to-string dict (association list). -/
def dictGet (d : List (String × String)) (k dflt : String) : String :=
  match d.lookup k with
  | some v => v
  | none => dflt

namespace GE

/-- `EMBEDDING_MODEL_ID` from `generate_embeddings.py`. -/
def EMBEDDING_MODEL_ID : String := "amazon.titan-embed-text-v2:0"

/-- `EMBEDDING_DIMENSION` from `generate_embeddings.py`. -/
def EMBEDDING_DIMENSION : Nat := 1024

/-- `MAX_INPUT_TOKENS` from `generate_embeddings.py`. -/
def MAX_INPUT_TOKENS : Nat := 8192

/-- `VALID_INDUSTRIES` from `generate_embeddings.py` (16 entries). -/
def VALID_INDUSTRIES : List String :=
  ["restaurant", "healthcare", "technology", "ecommerce", "real_estate",
   "professional_services", "creative_agency", "education", "nonprofit",
   "fitness", "hospitality", "finance", "retail", "automotive", "beauty_spa", "other"]

/-- Content of a template's `metadata.json` as read by
`generate_embeddings.py`.  Fields the code reads with `.get` and an
observable absent-case are `Option`; fields whose `.get` default is the
empty string / empty list (and where the code never distinguishes absent
from empty) carry that default directly. -/
structure GEMetadata where
  template_id : Option String := none
  name : String := ""
  industry : Option String := none
  cta_intent : Option String := none
  design_style : Option String := none
  sections : List String := []
  color_palette : List (String × String) := []
  keywords : List String := []
  description : String := ""
  figma_source : String := ""
  created_at : Option String := none
  customizable_fields : List String := []
  css_variables : List String := []
deriving DecidableEq, Repr

/-- `EmbeddingGenerator.build_embedding_text`: label fragments in fixed
order, then the triple-quoted semantic summary (whose literal newlines and
8-space indentation are part of the Python string), joined by a single
space. -/
def build_embedding_text (metadata : GEMetadata) : String :=
  let industry := metadata.industry.getD "general"
  let cta_intent := metadata.cta_intent.getD "contact"
  let design_style := metadata.design_style.getD "modern"
  let base := ["Industry: " ++ industry,
               "CTA Intent: " ++ cta_intent,
               "Design Style: " ++ design_style]
  let secPart :=
    if metadata.sections.isEmpty then []
    else ["Sections: " ++ String.intercalate ", " metadata.sections]
  let palPart :=
    if metadata.color_palette.isEmpty then []
    else ["Color Palette: " ++ dictGet metadata.color_palette "primary" "" ++ " primary"]
  let keyPart :=
    if metadata.keywords.isEmpty then []
    else ["Tags: " ++ String.intercalate ", " metadata.keywords]
  let descPart := if metadata.description = "" then [] else [metadata.description]
  let sections_preview :=
    if metadata.sections.isEmpty then "standard"
    else String.intercalate ", " (metadata.sections.take 3)
  let semantic_summary :=
    "\n        This is a " ++ design_style ++ " website template for the " ++
    industry ++ " industry,\n        optimized for " ++ cta_intent ++
    " conversions with sections including " ++ sections_preview ++ ".\n        "
  String.intercalate " " (base ++ secPart ++ palPart ++ keyPart ++ descPart ++ [semantic_summary])

/-- `EmbeddingGenerator.generate_embedding`: truncate the input to
`MAX_INPUT_TOKENS * 4` characters, then call the provider.  The provider
(`bedrock invoke_model` + JSON parse + `.get("embedding", [])`) is a
parameter returning either the parsed vector or an exception; the code
re-raises exceptions and returns whatever vector came back — the
dimension check at line 107 only logs a warning. -/
def generate_embedding (provider : String → Except String (List Int))
    (text : String) : Except String (List Int) :=
  let text' := if text.length > MAX_INPUT_TOKENS * 4
               then text.take (MAX_INPUT_TOKENS * 4) else text
  provider text'

/-- The paths/identity context of one `process_template` call: the AWS
region and environment of the `EmbeddingGenerator`, the template
directory's parent name and own name, and the run's wall-clock time
(`datetime.utcnow().isoformat()`, without the trailing `"Z"` the code
appends). -/
structure GECtx where
  region : String := "eu-west-1"
  environment : String := "dev"
  parentName : String := ""
  dirName : String := ""
  now : String := ""
deriving DecidableEq, Repr

/-- `self.templates_bucket` of `EmbeddingGenerator`. -/
def templates_bucket (environment : String) : String :=
  "bbws-templates-" ++ environment

/-- `self.vectors_bucket` of `EmbeddingGenerator` (same layout in
`process_existing_templates.py`). -/
def vectors_bucket (environment : String) : String :=
  "bbws-" ++ environment ++ "-vectors"

/-- The result dict built by `EmbeddingGenerator.process_template`
(lines 186-208), one key per field. -/
structure TemplateResult where
  template_id : String := ""
  name : String := ""
  industry : String := ""
  cta_intent : String := ""
  design_style : String := ""
  sections : List String := []
  keywords : List String := []
  color_palette : List (String × String) := []
  customizable_fields : List String := []
  css_variables : List String := []
  description : String := ""
  figma_source : String := ""
  s3_path : String := ""
  preview_url : String := ""
  embedding_text : String := ""
  embedding : List Int := []
  embedding_model : String := EMBEDDING_MODEL_ID
  embedding_dimension : Nat := EMBEDDING_DIMENSION
  status : String := "PUBLISHED"
  created_at : String := ""
  updated_at : String := ""
deriving DecidableEq, Repr

/-- `EmbeddingGenerator.process_template`.  `load` is the outcome of
finding and JSON-decoding `metadata.json` (`Except.error` covers both the
missing file, which returns `None` with a warning, and a decode
exception, which is caught and also returns `None`).  An embedding
failure is likewise caught and yields `none`; otherwise the full result
dict is built. -/
def process_template (embed : String → Except String (List Int))
    (ctx : GECtx) (load : Except String GEMetadata) : Option TemplateResult :=
  match load with
  | .error _ => none
  | .ok metadata =>
    let embedding_text := build_embedding_text metadata
    match generate_embedding embed embedding_text with
    | .error _ => none
    | .ok embedding =>
      some {
        template_id := metadata.template_id.getD ctx.dirName
        name := metadata.name
        industry := metadata.industry.getD "other"
        cta_intent := metadata.cta_intent.getD "contact"
        design_style := metadata.design_style.getD "modern"
        sections := metadata.sections
        keywords := metadata.keywords
        color_palette := metadata.color_palette
        customizable_fields := metadata.customizable_fields
        css_variables := metadata.css_variables
        description := metadata.description
        figma_source := metadata.figma_source
        s3_path := "website-templates/" ++ ctx.parentName ++ "/" ++ ctx.dirName ++ "/"
        preview_url := "https://" ++ templates_bucket ctx.environment ++ ".s3." ++
          ctx.region ++ ".amazonaws.com/website-templates/" ++ ctx.parentName ++
          "/" ++ ctx.dirName ++ "/preview.png"
        embedding_text := embedding_text.take 500
        embedding := embedding
        embedding_model := EMBEDDING_MODEL_ID
        embedding_dimension := EMBEDDING_DIMENSION
        status := "PUBLISHED"
        created_at := metadata.created_at.getD (ctx.now ++ "Z")
        updated_at := ctx.now ++ "Z" }

/-- The per-template loop of `process_all_templates`: each discovered
directory contributes its context and load outcome; failed templates
(`none`) are dropped and the loop continues. -/
def process_all_templates (embed : String → Except String (List Int))
    (items : List (GECtx × Except String GEMetadata)) : List TemplateResult :=
  items.filterMap (fun it => process_template embed it.1 it.2)

end GE

/-- One entry of the `templates` array of the vector index document.
Entries written by `generate_embeddings.py` carry no `source` key
(`source := none`); entries appended by `process_existing_templates.py`
carry one. -/
structure IndexEntry where
  template_id : String := ""
  name : String := ""
  industry : String := ""
  source : Option String := none
deriving DecidableEq, Repr

/-- The vector index document stored at
`template-embeddings/index.json`.  A fetched document with no
`templates` key is the default `{templates := []}`. -/
structure IndexDoc where
  templates : List IndexEntry := []
  vectors_count : Nat := 0
  model : String := ""
  dimension : Nat := 0
  generated_at : Option String := none
  updated_at : Option String := none
deriving DecidableEq, Repr

namespace GE

/-- The `metadata` sub-dict of the vector document written by
`EmbeddingGenerator.save_to_s3_vectors` (lines 250-261). -/
structure GEVectorMeta where
  template_id : String := ""
  name : String := ""
  industry : String := ""
  cta_intent : String := ""
  design_style : String := ""
  sections : List String := []
  keywords : List String := []
  status : String := ""
  s3_path : String := ""
  preview_url : String := ""
deriving DecidableEq, Repr

/-- The vector document written by `EmbeddingGenerator.save_to_s3_vectors`. -/
structure GEVectorDoc where
  id : String := ""
  vector : List Int := []
  metadata : GEVectorMeta := {}
deriving DecidableEq, Repr

/-- The `vector_doc` built for one embedding record
(`save_to_s3_vectors`, lines 247-262). -/
def vector_doc (e : TemplateResult) : GEVectorDoc :=
  { id := e.template_id
    vector := e.embedding
    metadata :=
      { template_id := e.template_id
        name := e.name
        industry := e.industry
        cta_intent := e.cta_intent
        design_style := e.design_style
        sections := e.sections
        keywords := e.keywords
        status := e.status
        s3_path := e.s3_path
        preview_url := e.preview_url } }

/-- The S3 key of one vector document (`save_to_s3_vectors`, line 264). -/
def vector_key (e : TemplateResult) : String :=
  "template-embeddings/" ++ e.template_id ++ ".json"

/-- The index document built by `save_to_s3_vectors` (lines 277-290):
built from the current batch alone and written over whatever index was
stored before. -/
def batch_index (now : String) (embeddings : List TemplateResult) : IndexDoc :=
  { vectors_count := embeddings.length
    model := EMBEDDING_MODEL_ID
    dimension := EMBEDDING_DIMENSION
    generated_at := some (now ++ "Z")
    updated_at := none
    templates := embeddings.map (fun e =>
      { template_id := e.template_id, name := e.name, industry := e.industry,
        source := none }) }

/-- The DynamoDB item written by `EmbeddingGenerator.save_to_dynamodb`
(lines 314-339). -/
structure DynamoItem where
  PK : String := "TEMPLATE"
  SK : String := ""
  template_id : String := ""
  name : String := ""
  industry : String := ""
  cta_intent : String := ""
  design_style : String := ""
  sections : List String := []
  keywords : List String := []
  color_palette : List (String × String) := []
  customizable_fields : List String := []
  css_variables : List String := []
  description : String := ""
  figma_source : String := ""
  s3_path : String := ""
  preview_url : String := ""
  vector_id : String := ""
  embedding_model : String := ""
  status : String := ""
  created_at : String := ""
  updated_at : String := ""
  GSI1PK : String := ""
  GSI1SK : String := ""
deriving DecidableEq, Repr

/-- The item built for one embedding record (`save_to_dynamodb`). -/
def dynamo_item (e : TemplateResult) : DynamoItem :=
  { PK := "TEMPLATE"
    SK := "TEMPLATE#" ++ e.template_id
    template_id := e.template_id
    name := e.name
    industry := e.industry
    cta_intent := e.cta_intent
    design_style := e.design_style
    sections := e.sections
    keywords := e.keywords
    color_palette := e.color_palette
    customizable_fields := e.customizable_fields
    css_variables := e.css_variables
    description := e.description
    figma_source := e.figma_source
    s3_path := e.s3_path
    preview_url := e.preview_url
    vector_id := e.template_id
    embedding_model := e.embedding_model
    status := e.status
    created_at := e.created_at
    updated_at := e.updated_at
    GSI1PK := "INDUSTRY#" ++ e.industry
    GSI1SK := "STATUS#" ++ e.status ++ "#" ++ e.template_id }

end GE

/-- A key-value store with overwrite-by-key semantics: the model of one
S3 bucket (keys are object keys) and of the DynamoDB table (keys are the
sort key; the partition key is the constant `"TEMPLATE"`). -/
def Store (α : Type) : Type := String → Option α

/-- The empty store. -/
def emptyStore {α : Type} : Store α := fun _ => none

/-- One `put_object` / `put_item`: a full overwrite of the value at the
key (S3 puts and DynamoDB `put_item` replace, never append). -/
def putObj {α : Type} (s : Store α) (k : String) (v : α) : Store α :=
  fun k' => if k' = k then some v else s k'

/-- A write loop: `for record in records: put(key(record), val(record))`. -/
def foldPut {ρ α : Type} (key : ρ → String) (val : ρ → α)
    (records : List ρ) (s : Store α) : Store α :=
  records.foldl (fun st r => putObj st (key r) (val r)) s

/-- The last value a write loop leaves at key `k`, if any write hits it. -/
def lastWrite {ρ α : Type} (key : ρ → String) (val : ρ → α) :
    List ρ → String → Option α
  | [], _ => none
  | r :: rest, k =>
    match lastWrite key val rest k with
    | some v => some v
    | none => if k = key r then some (val r) else none

theorem foldPut_eq {ρ α : Type} (key : ρ → String) (val : ρ → α)
    (records : List ρ) (s : Store α) :
    foldPut key val records s = fun k =>
      match lastWrite key val records k with
      | some v => some v
      | none => s k := by
  induction records generalizing s with
  | nil => funext k; simp [foldPut, lastWrite]
  | cons r rest ih =>
    funext k
    show foldPut key val rest (putObj s (key r) (val r)) k = _
    rw [ih (putObj s (key r) (val r))]
    simp only [lastWrite, putObj]
    cases lastWrite key val rest k with
    | some v => rfl
    | none =>
      by_cases h : k = key r <;> simp [h]

theorem foldPut_idem {ρ α : Type} (key : ρ → String) (val : ρ → α)
    (records : List ρ) (s : Store α) :
    foldPut key val records (foldPut key val records s) =
      foldPut key val records s := by
  rw [foldPut_eq key val records (foldPut key val records s)]
  funext k
  rw [congrFun (foldPut_eq key val records s) k]
  cases lastWrite key val records k <;> rfl

namespace PET

/-- The `metadata` sub-dict of the vector document written by
`ExistingTemplateProcessor.save_to_s3_vectors` (lines 230-242). -/
structure PETVectorMeta where
  template_id : String := ""
  name : String := ""
  source : String := ""
  industry : String := ""
  cta_intent : String := ""
  design_style : String := ""
  pages_count : Nat := 0
  s3_bucket : String := ""
  s3_path : String := ""
  preview_url : String := ""
  status : String := ""
deriving DecidableEq, Repr

/-- The vector document written by
`ExistingTemplateProcessor.save_to_s3_vectors`. -/
structure PETVectorDoc where
  id : String := ""
  vector : List Int := []
  metadata : PETVectorMeta := {}
deriving DecidableEq, Repr

end PET

/-- An object in the `bbws-{env}-vectors` bucket: a per-template vector
document written by either script, or the index document. -/
inductive S3Obj : Type
  | vecGE (d : GE.GEVectorDoc)
  | vecPET (d : PET.PETVectorDoc)
  | idx (d : IndexDoc)
deriving DecidableEq

namespace GE

/-- The S3 key of the index document (both scripts). -/
def index_key : String := "template-embeddings/index.json"

/-- `EmbeddingGenerator.save_to_s3_vectors`: write one vector document
per record, then overwrite the index document with one built from the
current batch only. -/
def save_to_s3_vectors (now : String) (embeddings : List TemplateResult)
    (s : Store S3Obj) : Store S3Obj :=
  let s' := foldPut vector_key (fun e => S3Obj.vecGE (vector_doc e)) embeddings s
  putObj s' index_key (S3Obj.idx (batch_index now embeddings))

/-- `EmbeddingGenerator.save_to_dynamodb`: one `put_item` per record,
keyed by the sort key. -/
def save_to_dynamodb (embeddings : List TemplateResult)
    (s : Store DynamoItem) : Store DynamoItem :=
  foldPut (fun e => "TEMPLATE#" ++ e.template_id) dynamo_item embeddings s

/-- The vector-write loop of `save_to_s3_vectors` with a fallible store:
`bad k = true` means `put_object` at key `k` raises.  There is no
`try/except` in the loop, so the first failing write propagates and
aborts with the store as written so far (`Except.error`). -/
def put_vectors_loop (bad : String → Bool) :
    List TemplateResult → Store S3Obj → Except (Store S3Obj) (Store S3Obj)
  | [], s => .ok s
  | e :: rest, s =>
    if bad (vector_key e) then .error s
    else put_vectors_loop bad rest
      (putObj s (vector_key e) (S3Obj.vecGE (vector_doc e)))

/-- `save_to_s3_vectors` with a fallible store: the loop, then the index
write (also uncaught). -/
def save_to_s3_vectors_fallible (bad : String → Bool) (now : String)
    (embeddings : List TemplateResult) (s : Store S3Obj) :
    Except (Store S3Obj) (Store S3Obj) :=
  match put_vectors_loop bad embeddings s with
  | .error s' => .error s'
  | .ok s' =>
    if bad index_key then .error s'
    else .ok (putObj s' index_key (S3Obj.idx (batch_index now embeddings)))

end GE

/-- Python `str.title()` restricted to ASCII: the first letter of each
run of letters is uppercased, later letters of the run lowercased,
non-letters passed through.  The boolean carries whether the previous
character was a letter. -/
def pyTitleAux : Bool → List Char → List Char
  | _, [] => []
  | prevAlpha, c :: rest =>
    if c.isAlpha then
      (if prevAlpha then c.toLower else c.toUpper) :: pyTitleAux true rest
    else
      c :: pyTitleAux false rest

/-- Python `str.title()`. -/
def pyTitle (s : String) : String :=
  ⟨pyTitleAux false s.data⟩

namespace PET

/-- `EMBEDDING_MODEL_ID` from `process_existing_templates.py`. -/
def EMBEDDING_MODEL_ID : String := "amazon.titan-embed-text-v2:0"

/-- `EMBEDDING_DIMENSION` from `process_existing_templates.py`. -/
def EMBEDDING_DIMENSION : Nat := 1024

/-- `MAX_INPUT_TOKENS` from `process_existing_templates.py`. -/
def MAX_INPUT_TOKENS : Nat := 8192

/-- `FIGMA_ASSETS_BUCKET` from `process_existing_templates.py`. -/
def FIGMA_ASSETS_BUCKET : String := "site-builder-dev-design-assets-536580886816"

/-- `MIGRATED_SITES_BUCKET` from `process_existing_templates.py`. -/
def MIGRATED_SITES_BUCKET : String := "bigbeard-migrated-site-dev"

/-- A template dict as consumed by
`ExistingTemplateProcessor.build_embedding_text` (registry entry or the
synthesized `template_data` of the migrated path).  `pages_count`,
`features` and `name` are only tested for truthiness, so absent and
empty/zero coincide. -/
structure PETTemplate where
  industry : Option String := none
  cta_intent : Option String := none
  design_style : Option String := none
  pages_count : Nat := 0
  features : List String := []
  name : String := ""
deriving DecidableEq, Repr

/-- `ExistingTemplateProcessor.build_embedding_text` (lines 77-105). -/
def build_embedding_text (template : PETTemplate) : String :=
  let industry := template.industry.getD "general"
  let cta_intent := template.cta_intent.getD "contact"
  let design_style := template.design_style.getD "modern"
  let base := ["Industry: " ++ industry,
               "CTA Intent: " ++ cta_intent,
               "Design Style: " ++ design_style]
  let pagesPart :=
    if template.pages_count ≠ 0
    then ["Pages: " ++ toString template.pages_count ++ " pages"] else []
  let featPart :=
    if template.features.isEmpty then []
    else ["Features: " ++ String.intercalate ", " template.features]
  let namePart := if template.name = "" then [] else ["Name: " ++ template.name]
  let summary :=
    "\n        This is a " ++ design_style ++ " website template for the " ++
    industry ++ " industry,\n        optimized for " ++ cta_intent ++
    " conversions.\n        "
  String.intercalate " " (base ++ pagesPart ++ featPart ++ namePart ++ [summary])

/-- `ExistingTemplateProcessor.generate_embedding` (lines 60-75): same
truncate-then-call shape as in `generate_embeddings.py`, without even the
dimension warning. -/
def generate_embedding (provider : String → Except String (List Int))
    (text : String) : Except String (List Int) :=
  let text' := if text.length > MAX_INPUT_TOKENS * 4
               then text.take (MAX_INPUT_TOKENS * 4) else text
  provider text'

/-- One entry of the migrated-sites catalog (or of
`registry["migrated_sites_highlights"]`).  `cta_intent` and
`design_style` are modelled although the code never reads them, so that
statements can quantify over their values. -/
structure SiteEntry where
  site_slug : Option String := none
  slug : Option String := none
  industry : Option String := none
  pages : Option Nat := none
  features : List String := []
  cta_intent : Option String := none
  design_style : Option String := none
deriving DecidableEq, Repr

/-- `site.get("site_slug", site.get("slug", ""))`: the value of
`site_slug` when the key is present (even if empty), else the value of
`slug` when present, else `""`. -/
def effective_slug (site : SiteEntry) : String :=
  match site.site_slug with
  | some v => v
  | none => site.slug.getD ""

/-- The result dict built by `process_recreated_templates` /
`process_migrated_templates`.  Keys only one of the two paths sets
(`features`, `primary_color`, `secondary_color`, `pages_count`) default
to the `.get` defaults the save functions use for them. -/
structure PETResult where
  template_id : String := ""
  name : String := ""
  source : String := ""
  industry : String := ""
  cta_intent : String := ""
  design_style : String := ""
  pages_count : Nat := 0
  features : List String := []
  primary_color : String := ""
  secondary_color : String := ""
  s3_bucket : String := ""
  s3_path : String := ""
  preview_url : String := ""
  embedding : List Int := []
  embedding_text : String := ""
  status : String := ""
  created_at : String := ""
deriving DecidableEq, Repr

/-- The body of the `for site in sites` loop of
`ExistingTemplateProcessor.process_migrated_templates` (lines 175-218):
skip when the effective slug is falsy, otherwise build `template_data`
(with hard-coded `cta_intent` and `design_style`), embed, and return the
result.  An exception from the embedding call is caught by the loop's
`try/except` and yields `none`. -/
def process_migrated_one (embed : String → Except String (List Int))
    (region now : String) (site : SiteEntry) : Option PETResult :=
  let site_slug := effective_slug site
  if site_slug = "" then none
  else
    let template_id := "migrated-" ++ site_slug
    let tname := pyTitle (site_slug.replace "-" " ") ++ " Migrated Site"
    let template_data : PETTemplate :=
      { industry := some (site.industry.getD "general")
        cta_intent := some "contact"
        design_style := some "wordpress-migrated"
        pages_count := site.pages.getD 0
        features := site.features
        name := tname }
    let embedding_text := build_embedding_text template_data
    match generate_embedding embed embedding_text with
    | .error _ => none
    | .ok embedding =>
      some { template_id := template_id
             name := tname
             source := "migrated"
             industry := site.industry.getD "general"
             cta_intent := "contact"
             design_style := "wordpress-migrated"
             pages_count := site.pages.getD 0
             features := site.features
             s3_bucket := MIGRATED_SITES_BUCKET
             s3_path := site_slug ++ "/"
             preview_url := "https://" ++ MIGRATED_SITES_BUCKET ++ ".s3." ++
               region ++ ".amazonaws.com/" ++ site_slug ++ "/index.html"
             embedding := embedding
             embedding_text := embedding_text.take 500
             status := "PUBLISHED"
             created_at := now ++ "Z" }

/-- `ExistingTemplateProcessor.process_migrated_templates` over the
site list selected from the catalog (or the registry highlights). -/
def process_migrated_templates (embed : String → Except String (List Int))
    (region now : String) (sites : List SiteEntry) : List PETResult :=
  sites.filterMap (process_migrated_one embed region now)

/-- The S3 key of one vector document (line 245). -/
def vector_key (e : PETResult) : String :=
  "template-embeddings/" ++ e.template_id ++ ".json"

/-- The S3 key of the index document (line 262). -/
def index_key : String := "template-embeddings/index.json"

/-- The `vector_doc` built by
`ExistingTemplateProcessor.save_to_s3_vectors` (lines 227-243). -/
def vector_doc (e : PETResult) : PETVectorDoc :=
  { id := e.template_id
    vector := e.embedding
    metadata :=
      { template_id := e.template_id
        name := e.name
        source := e.source
        industry := e.industry
        cta_intent := e.cta_intent
        design_style := e.design_style
        pages_count := e.pages_count
        s3_bucket := e.s3_bucket
        s3_path := e.s3_path
        preview_url := e.preview_url
        status := e.status } }

/-- Fetching the existing index in `_update_vectors_index` (lines
265-272): any failure — object absent or undecodable — falls back to
`{"templates": []}`. -/
def fetch_index (s : Store S3Obj) : IndexDoc :=
  match s index_key with
  | some (S3Obj.idx d) => d
  | _ => {}

/-- `ExistingTemplateProcessor._update_vectors_index` without the store
round-trip: the set of already-present ids is computed once, each new
embedding whose id is not in that set is appended, and the aggregate
fields are recomputed (`vectors_count` from the merged list,
`updated_at` fresh; `generated_at` is left as fetched). -/
def update_vectors_index (now : String) (existing_index : IndexDoc)
    (new_embeddings : List PETResult) : IndexDoc :=
  let existing_ids := existing_index.templates.map (fun t => t.template_id)
  let appended := (new_embeddings.filter
      (fun emb => decide (emb.template_id ∉ existing_ids))).map
      (fun emb => ({ template_id := emb.template_id, name := emb.name,
                     industry := emb.industry,
                     source := some emb.source } : IndexEntry))
  { templates := existing_index.templates ++ appended
    vectors_count := (existing_index.templates ++ appended).length
    model := EMBEDDING_MODEL_ID
    dimension := EMBEDDING_DIMENSION
    generated_at := existing_index.generated_at
    updated_at := some (now ++ "Z") }

/-- `ExistingTemplateProcessor.save_to_s3_vectors`: write the vector
documents, then fetch-merge-write the index (the fetch happens after the
vector writes, against the same bucket). -/
def save_to_s3_vectors (now : String) (embeddings : List PETResult)
    (s : Store S3Obj) : Store S3Obj :=
  let s' := foldPut vector_key (fun e => S3Obj.vecPET (vector_doc e)) embeddings s
  putObj s' index_key
    (S3Obj.idx (update_vectors_index now (fetch_index s') embeddings))

/-- The DynamoDB item written by
`ExistingTemplateProcessor.save_to_dynamodb` (lines 305-329). -/
structure PETDynamoItem where
  PK : String := "TEMPLATE"
  SK : String := ""
  template_id : String := ""
  name : String := ""
  source : String := ""
  industry : String := ""
  cta_intent : String := ""
  design_style : String := ""
  pages_count : Nat := 0
  features : List String := []
  primary_color : String := ""
  secondary_color : String := ""
  s3_bucket : String := ""
  s3_path : String := ""
  preview_url : String := ""
  vector_id : String := ""
  embedding_model : String := ""
  status : String := ""
  created_at : String := ""
  updated_at : String := ""
  GSI1PK : String := ""
  GSI1SK : String := ""
deriving DecidableEq, Repr

/-- The item built for one record by
`ExistingTemplateProcessor.save_to_dynamodb`; unlike the other script it
stamps `updated_at` with a fresh `utcnow()`. -/
def dynamo_item (now : String) (e : PETResult) : PETDynamoItem :=
  { PK := "TEMPLATE"
    SK := "TEMPLATE#" ++ e.template_id
    template_id := e.template_id
    name := e.name
    source := e.source
    industry := e.industry
    cta_intent := e.cta_intent
    design_style := e.design_style
    pages_count := e.pages_count
    features := e.features
    primary_color := e.primary_color
    secondary_color := e.secondary_color
    s3_bucket := e.s3_bucket
    s3_path := e.s3_path
    preview_url := e.preview_url
    vector_id := e.template_id
    embedding_model := EMBEDDING_MODEL_ID
    status := e.status
    created_at := e.created_at
    updated_at := now ++ "Z"
    GSI1PK := "INDUSTRY#" ++ e.industry
    GSI1SK := "STATUS#" ++ e.status ++ "#" ++ e.template_id }

/-- `ExistingTemplateProcessor.save_to_dynamodb` over the table store. -/
def save_to_dynamodb (now : String) (embeddings : List PETResult)
    (s : Store PETDynamoItem) : Store PETDynamoItem :=
  foldPut (fun e => "TEMPLATE#" ++ e.template_id) (dynamo_item now) embeddings s

end PET

namespace VT

/-- `VALID_INDUSTRIES` from `validate_template.py` (19 entries — three
more than the list in `generate_embeddings.py`). -/
def VALID_INDUSTRIES : List String :=
  ["restaurant", "healthcare", "technology", "ecommerce", "real_estate",
   "professional_services", "creative_agency", "education", "nonprofit",
   "fitness", "hospitality", "finance", "retail", "automotive", "beauty_spa",
   "manufacturing", "energy", "marketing", "other"]

/-- `VALID_CTA_INTENTS` from `validate_template.py`. -/
def VALID_CTA_INTENTS : List String :=
  ["contact", "purchase", "booking", "signup", "lead_generation", "download", "learn_more"]

/-- `VALID_DESIGN_STYLES` from `validate_template.py`. -/
def VALID_DESIGN_STYLES : List String :=
  ["modern", "classic", "minimal", "bold", "elegant", "playful", "corporate", "warm",
   "modern-industrial", "dark"]

/-- The `ValidationError` record of `validate_template.py`: a file name,
a message and a severity (`"error"`, `"warning"` or `"info"`). -/
structure ValidationError where
  file : String
  message : String
  severity : String
deriving DecidableEq, Repr

/-- The decoded content of `metadata.json` as `validate_metadata` reads
it: the five required fields with presence observable, plus the
truthiness-only `description` and `keywords`. -/
structure VMetadata where
  template_id : Option String := none
  name : Option String := none
  industry : Option String := none
  cta_intent : Option String := none
  design_style : Option String := none
  description : String := ""
  keywords : List String := []
deriving DecidableEq, Repr

/-- One step of the required-fields loop of `validate_metadata`. -/
def missing_field (field : String) (present : Bool) : List ValidationError :=
  if present then []
  else [{ file := "metadata.json",
          message := "Missing required field: " ++ field,
          severity := "error" }]

/-- `validate_metadata` (lines 216-255) after a successful JSON decode:
required-field checks in source order, then the three closed-enum
checks (each skipped when the value is falsy), then the description and
keywords warnings. -/
def validate_metadata (content : VMetadata) : List ValidationError :=
  let requiredErrors :=
    missing_field "template_id" content.template_id.isSome ++
    missing_field "name" content.name.isSome ++
    missing_field "industry" content.industry.isSome ++
    missing_field "cta_intent" content.cta_intent.isSome ++
    missing_field "design_style" content.design_style.isSome
  let industry := content.industry.getD ""
  let industryErrors :=
    if industry ≠ "" ∧ industry ∉ VALID_INDUSTRIES then
      [{ file := "metadata.json", message := "Invalid industry: " ++ industry,
         severity := "error" }]
    else []
  let cta_intent := content.cta_intent.getD ""
  let ctaErrors :=
    if cta_intent ≠ "" ∧ cta_intent ∉ VALID_CTA_INTENTS then
      [{ file := "metadata.json", message := "Invalid cta_intent: " ++ cta_intent,
         severity := "error" }]
    else []
  let design_style := content.design_style.getD ""
  let styleErrors :=
    if design_style ≠ "" ∧ design_style ∉ VALID_DESIGN_STYLES then
      [{ file := "metadata.json", message := "Invalid design_style: " ++ design_style,
         severity := "error" }]
    else []
  let descWarnings :=
    if content.description = "" then
      [{ file := "metadata.json",
         message := "Missing description field (important for RAG matching)",
         severity := "warning" }]
    else []
  let keywordWarnings :=
    if content.keywords.isEmpty then
      [{ file := "metadata.json",
         message := "Consider adding keywords for better search matching",
         severity := "warning" }]
    else []
  requiredErrors ++ industryErrors ++ ctaErrors ++ styleErrors ++
    descWarnings ++ keywordWarnings

end VT

/-! ### Concrete fixtures used by witnesses and counterexamples -/

/-- A provider that always succeeds (with an empty vector; the pipeline
never inspects the components). -/
def embedOk : String → Except String (List Int) := fun _ => Except.ok []

/-- A provider returning a 3-component vector (wrong dimension). -/
def shortProvider : String → Except String (List Int) :=
  fun _ => Except.ok [0, 0, 0]

/-- The metadata record of the end-to-end example of the spec. -/
def c4_metadata : GE.GEMetadata :=
  { template_id := some "t1", industry := some "finance",
    cta_intent := some "contact", design_style := some "modern",
    sections := ["hero", "about", "contact"] }

/-- Concrete embedding records for store scenarios. -/
def rA : GE.TemplateResult :=
  { template_id := "tA", name := "A", industry := "technology" }

def rB : GE.TemplateResult :=
  { template_id := "tB", name := "B", industry := "finance" }

def rC : GE.TemplateResult :=
  { template_id := "tC", name := "C", industry := "retail" }

/-! ### C4 — the end-to-end Text Builder example -/

/-- C4, counterexample: on the example record the Text Builder output
does contain `"Industry: finance"`, but it does not contain the
synthesized sentence the claim quotes — the code writes `"modern website
template"` (not `"modern template"`) and the triple-quoted Python string
puts a newline plus eight spaces of indentation inside the sentence. -/
theorem C4_counterexample :
    strContains (GE.build_embedding_text c4_metadata) "Industry: finance" = true ∧
    strContains (GE.build_embedding_text c4_metadata)
      "This is a modern template for the finance industry, optimized for contact conversions with sections including hero, about, contact." = false := by
  decide

/-- C4, amended: for the input record `{template_id: "t1", industry:
"finance", cta_intent: "contact", design_style: "modern", sections:
["hero","about","contact"]}`, `build_embedding_text` returns a string
that contains the substring `"Industry: finance"` and the synthesized
summary with the wording and line layout the code actually produces:
`"This is a modern website template for the finance industry,"` followed
(after a newline and indentation) by `"optimized for contact conversions
with sections including hero, about, contact."`. -/
theorem C4_amended_example :
    strContains (GE.build_embedding_text c4_metadata) "Industry: finance" = true ∧
    strContains (GE.build_embedding_text c4_metadata)
      "This is a modern website template for the finance industry," = true ∧
    strContains (GE.build_embedding_text c4_metadata)
      "optimized for contact conversions with sections including hero, about, contact." = true := by
  decide

/-! ### C8 — Text Builder determinism -/

/-- C8: both text builders are deterministic — two invocations on equal
metadata records return identical output strings.  (In the embedding the
builders are pure functions of the record: the Python code reads no
ambient state, clock or randomness.) -/
theorem C8_build_embedding_text_deterministic :
    (∀ m₁ m₂ : GE.GEMetadata, m₁ = m₂ →
      GE.build_embedding_text m₁ = GE.build_embedding_text m₂) ∧
    (∀ t₁ t₂ : PET.PETTemplate, t₁ = t₂ →
      PET.build_embedding_text t₁ = PET.build_embedding_text t₂) :=
  ⟨fun _ _ h => h ▸ rfl, fun _ _ h => h ▸ rfl⟩

/-- C8, witness at the example record and the default template. -/
theorem C8_witness :
    GE.build_embedding_text c4_metadata = GE.build_embedding_text c4_metadata ∧
    PET.build_embedding_text {} = PET.build_embedding_text {} :=
  ⟨C8_build_embedding_text_deterministic.1 c4_metadata c4_metadata rfl,
   C8_build_embedding_text_deterministic.2 {} {} rfl⟩

/-! ### C9 — `vectors_count` matches the `templates` list -/

/-- C9: after either index write — the batch-built index of
`generate_embeddings.save_to_s3_vectors` or the fetch-merge-write update
of `process_existing_templates._update_vectors_index` — the
`vectors_count` field equals the length of the `templates` list. -/
theorem C9_vectors_count_eq_templates_length :
    ∀ (now : String) (embs : List GE.TemplateResult)
      (now' : String) (existing : IndexDoc) (new : List PET.PETResult),
      (GE.batch_index now embs).vectors_count =
        (GE.batch_index now embs).templates.length ∧
      (PET.update_vectors_index now' existing new).vectors_count =
        (PET.update_vectors_index now' existing new).templates.length := by
  intro now embs now' existing new
  constructor
  · simp [GE.batch_index]
  · rfl

/-! ### C6 — the embedding adapter's return behaviour -/

/-- C6, counterexample: a provider response whose vector has length 3 is
returned to the caller unchanged — `generate_embedding` does not turn
the dimension mismatch into an error (the length check at line 107 only
logs a warning), so the claim that a partial vector is never returned is
false. -/
theorem C6_counterexample :
    GE.generate_embedding shortProvider "hello" = Except.ok [0, 0, 0] ∧
    ([0, 0, 0] : List Int).length ≠ GE.EMBEDDING_DIMENSION := by
  exact ⟨rfl, by decide⟩

/-- C6, amended: `generate_embedding` (in both scripts) truncates its
input to `MAX_INPUT_TOKENS * 4` characters and then is an exact
pass-through of the provider: a provider exception propagates to the
caller unchanged (there is no retry loop in this function and no
`EmbeddingFailed` wrapper — retries live in the boto client
configuration), and any returned vector, including one whose length
differs from `EMBEDDING_DIMENSION`, is handed to the caller as-is. -/
theorem C6_amended_pass_through :
    ∀ (provider : String → Except String (List Int)) (text : String),
      GE.generate_embedding provider text =
        provider (if text.length > GE.MAX_INPUT_TOKENS * 4
                  then text.take (GE.MAX_INPUT_TOKENS * 4) else text) ∧
      PET.generate_embedding provider text =
        provider (if text.length > PET.MAX_INPUT_TOKENS * 4
                  then text.take (PET.MAX_INPUT_TOKENS * 4) else text) :=
  fun _ _ => ⟨rfl, rfl⟩

/-! ### C3 — closed-enum validation of `industry` -/

/-- A metadata record with an out-of-enum industry, as read by the
indexing pipeline. -/
def spaceflight_metadata : GE.GEMetadata :=
  { template_id := some "t-space", name := "Space",
    industry := some "spaceflight", cta_intent := some "contact",
    design_style := some "modern" }

/-- The same record as read by the validator. -/
def spaceflight_vmetadata : VT.VMetadata :=
  { template_id := some "t-space", name := some "Space",
    industry := some "spaceflight", cta_intent := some "contact",
    design_style := some "modern" }

/-- The discovery context of the out-of-enum record. -/
def c3_ctx : GE.GECtx :=
  { parentName := "technology", dirName := "t-space", now := "2026-01-01T00:00:00" }

/-- C3, counterexample: `"spaceflight"` is outside both industry enums,
yet `process_template` — the indexing pipeline — accepts the record
without any validation step and returns it for indexing with
`industry = "spaceflight"`.  The pipeline never raises a
`ValidationError`; only the standalone validator script checks the enum. -/
theorem C3_counterexample :
    (GE.process_template embedOk c3_ctx (Except.ok spaceflight_metadata)).isSome = true ∧
    (GE.process_template embedOk c3_ctx (Except.ok spaceflight_metadata)).map
      GE.TemplateResult.industry = some "spaceflight" ∧
    "spaceflight" ∉ GE.VALID_INDUSTRIES ∧
    "spaceflight" ∉ VT.VALID_INDUSTRIES := by
  refine ⟨rfl, rfl, by decide, by decide⟩

/-- C3, amended: the closed-enum check lives only in the standalone
validator: for any record whose (truthy) `industry` is outside
`VALID_INDUSTRIES`, `validate_metadata` emits an error-severity
`ValidationError` `"Invalid industry: …"`.  The indexing pipeline itself
performs no such check: whatever industry string the metadata carries is
copied verbatim into the result it indexes. -/
theorem C3_amended :
    (∀ (content : VT.VMetadata) (i : String),
      content.industry = some i → i ≠ "" → i ∉ VT.VALID_INDUSTRIES →
      ({ file := "metadata.json", message := "Invalid industry: " ++ i,
         severity := "error" } : VT.ValidationError) ∈ VT.validate_metadata content) ∧
    (∀ (embed : String → Except String (List Int)) (ctx : GE.GECtx)
       (m : GE.GEMetadata) (i : String) (r : GE.TemplateResult),
      m.industry = some i →
      GE.process_template embed ctx (Except.ok m) = some r →
      r.industry = i) := by
  constructor
  · intro content i hsome hne hnotin
    unfold VT.validate_metadata
    rw [hsome]
    simp only [Option.getD_some]
    rw [if_pos ⟨hne, hnotin⟩]
    simp [List.mem_append]
  · intro embed ctx m i r hsome hproc
    simp only [GE.process_template] at hproc
    split at hproc
    · exact absurd hproc (by simp)
    · rw [Option.some.injEq] at hproc
      subst hproc
      simp [hsome]

/-- C3, witness: the two halves of the amended claim at the
`"spaceflight"` record. -/
theorem C3_amended_witness :
    ({ file := "metadata.json", message := "Invalid industry: spaceflight",
       severity := "error" } : VT.ValidationError) ∈
      VT.validate_metadata spaceflight_vmetadata ∧
    ((GE.process_template embedOk c3_ctx
        (Except.ok spaceflight_metadata)).getD {}).industry = "spaceflight" :=
  ⟨C3_amended.1 spaceflight_vmetadata "spaceflight" rfl (by decide) (by decide),
   C3_amended.2 embedOk c3_ctx spaceflight_metadata "spaceflight" _ rfl rfl⟩

/-! ### C10 — the migrated-sites loop -/

/-- A catalog entry that *has* both a `site_slug` and a `slug` field,
with the `site_slug` value empty. -/
def c10_bad_site : PET.SiteEntry :=
  { site_slug := some "", slug := some "acme-studio",
    industry := some "finance", cta_intent := some "purchase",
    design_style := some "minimal" }

/-- A catalog entry with only a (nonempty) `slug` field and its own
`cta_intent`/`design_style` values. -/
def c10_good_site : PET.SiteEntry :=
  { slug := some "blue-cafe", industry := some "restaurant",
    pages := some 4, features := ["gallery", "menu"],
    cta_intent := some "purchase", design_style := some "dark" }

/-- C10, counterexample: this entry has both a `site_slug` field and a
(nonempty) `slug` field, so by the claim it must produce a record — but
`site.get("site_slug", ...)` returns the present-but-empty `site_slug`
value, the falsiness test fires, and the entry is skipped.  The skip
condition is emptiness of the effective slug value, not absence of the
fields. -/
theorem C10_counterexample :
    PET.process_migrated_one embedOk "eu-west-1" "T" c10_bad_site = none ∧
    c10_bad_site.site_slug = some "" ∧
    c10_bad_site.slug = some "acme-studio" :=
  ⟨rfl, rfl, rfl⟩

/-- C10, amended: assuming the embedding provider succeeds, the loop
body skips an entry exactly when its effective slug — the value of
`site_slug` if that key is present, else the value of `slug` if present,
else `""` — is the empty string; every produced record has
`template_id = "migrated-" ++ slug`, `cta_intent = "contact"` and
`design_style = "wordpress-migrated"`, regardless of any `cta_intent` or
`design_style` values in the catalog entry. -/
theorem C10_amended :
    ∀ (embed : String → Except String (List Int)) (region now : String)
      (site : PET.SiteEntry),
      (∀ t, ∃ v, embed t = Except.ok v) →
      ((PET.process_migrated_one embed region now site = none ↔
          PET.effective_slug site = "") ∧
       (∀ r, PET.process_migrated_one embed region now site = some r →
          r.template_id = "migrated-" ++ PET.effective_slug site ∧
          r.cta_intent = "contact" ∧
          r.design_style = "wordpress-migrated")) := by
  intro embed region now site htotal
  by_cases hs : PET.effective_slug site = ""
  · constructor
    · simp [PET.process_migrated_one, hs]
    · intro r hproc
      rw [PET.process_migrated_one, if_pos hs] at hproc
      exact absurd hproc (by simp)
  · have hgen : ∀ t, ∃ v, PET.generate_embedding embed t = Except.ok v := by
      intro t
      obtain ⟨v, hv⟩ := htotal (if t.length > PET.MAX_INPUT_TOKENS * 4
        then t.take (PET.MAX_INPUT_TOKENS * 4) else t)
      exact ⟨v, hv⟩
    obtain ⟨v, hv⟩ := hgen (PET.build_embedding_text
      { industry := some (site.industry.getD "general")
        cta_intent := some "contact"
        design_style := some "wordpress-migrated"
        pages_count := site.pages.getD 0
        features := site.features
        name := pyTitle ((PET.effective_slug site).replace "-" " ") ++
          " Migrated Site" })
    simp only [PET.process_migrated_one, if_neg hs]
    rw [hv]
    constructor
    · simp [hs]
    · intro r hr
      rw [Option.some.injEq] at hr
      subst hr
      exact ⟨rfl, rfl, rfl⟩

/-- C10, witness: the amended claim applied to a concrete entry with a
nonempty `slug`, a `cta_intent` of `"purchase"` and a `design_style` of
`"dark"` in the catalog: the produced record still gets the hard-coded
values. -/
theorem C10_amended_witness :
    ((PET.process_migrated_one embedOk "eu-west-1" "T" c10_good_site).getD
        {}).template_id = "migrated-" ++ PET.effective_slug c10_good_site ∧
    ((PET.process_migrated_one embedOk "eu-west-1" "T" c10_good_site).getD
        {}).cta_intent = "contact" ∧
    ((PET.process_migrated_one embedOk "eu-west-1" "T" c10_good_site).getD
        {}).design_style = "wordpress-migrated" :=
  (C10_amended embedOk "eu-west-1" "T" c10_good_site
    (fun _ => ⟨[], rfl⟩)).2 _ rfl

/-! ### C1 — index merge across sequential runs -/

/-- C1, counterexample: a `generate_embeddings.py` run indexing `{A, B}`
followed by a second such run indexing `{C}` leaves an index whose entry
list is exactly `[tC]` — `save_to_s3_vectors` builds the index from the
current batch alone and overwrites the stored one, dropping `tA` and
`tB`.  (Only `process_existing_templates.py` merges.) -/
theorem C1_counterexample :
    (PET.fetch_index
        (GE.save_to_s3_vectors "T2" [rC]
          (GE.save_to_s3_vectors "T1" [rA, rB] emptyStore))).templates.map
      IndexEntry.template_id = ["tC"] ∧
    "tA" ∉ (PET.fetch_index
        (GE.save_to_s3_vectors "T2" [rC]
          (GE.save_to_s3_vectors "T1" [rA, rB] emptyStore))).templates.map
      IndexEntry.template_id := by
  decide

/-- C1, amended: the fetch-merge-write update of
`process_existing_templates._update_vectors_index` does merge: every
entry of the fetched index is preserved in the written index, and an id
appears in the written index exactly when it was already present or
belongs to the new batch — so indexing `{A, B}` and then separately
indexing `{C}` through this path yields exactly `{A, B, C}`.  The other
index writer, `generate_embeddings.save_to_s3_vectors`, instead
overwrites the index with the current batch only. -/
theorem C1_amended_merge :
    ∀ (now : String) (existing : IndexDoc) (new : List PET.PETResult),
      (∀ e, e ∈ existing.templates →
        e ∈ (PET.update_vectors_index now existing new).templates) ∧
      (∀ x, x ∈ (PET.update_vectors_index now existing new).templates.map
          IndexEntry.template_id ↔
        x ∈ existing.templates.map IndexEntry.template_id ∨
        x ∈ new.map PET.PETResult.template_id) := by
  intro now existing new
  constructor
  · intro e he
    show e ∈ existing.templates ++ _
    exact List.mem_append_left _ he
  · intro x
    show x ∈ (existing.templates ++ _).map IndexEntry.template_id ↔ _
    simp only [List.map_append, List.mem_append, List.map_map, List.mem_map,
      Function.comp_apply, List.mem_filter]
    constructor
    · rintro (hx | ⟨emb, ⟨hmem, _⟩, rfl⟩)
      · exact Or.inl hx
      · exact Or.inr ⟨emb, hmem, rfl⟩
    · rintro (hx | ⟨emb, hmem, rfl⟩)
      · exact Or.inl hx
      · by_cases hin : ∃ a ∈ existing.templates, a.template_id = emb.template_id
        · exact Or.inl hin
        · exact Or.inr ⟨emb, ⟨hmem, by simpa using hin⟩, rfl⟩

/-- Concrete records for the merge scenario. -/
def pA : PET.PETResult :=
  { template_id := "pA", name := "Alpha", industry := "technology", source := "migrated" }

def pB : PET.PETResult :=
  { template_id := "pB", name := "Beta", industry := "finance", source := "migrated" }

def pC : PET.PETResult :=
  { template_id := "pC", name := "Gamma", industry := "retail", source := "migrated" }

/-- C1, witness: merging `{C}` into the index obtained by indexing
`{A, B}` preserves the `A` entry, both as a whole entry and by id. -/
theorem C1_amended_merge_witness :
    (⟨"pA", "Alpha", "technology", some "migrated"⟩ : IndexEntry) ∈
      (PET.update_vectors_index "T2"
        (PET.update_vectors_index "T1" {} [pA, pB]) [pC]).templates ∧
    "pA" ∈ (PET.update_vectors_index "T2"
        (PET.update_vectors_index "T1" {} [pA, pB]) [pC]).templates.map
      IndexEntry.template_id :=
  ⟨(C1_amended_merge "T2" (PET.update_vectors_index "T1" {} [pA, pB]) [pC]).1
      _ (by decide),
   ((C1_amended_merge "T2" (PET.update_vectors_index "T1" {} [pA, pB]) [pC]).2
      "pA").mpr (Or.inl (by decide))⟩

/-! ### C2 — per-template failure isolation -/

/-- A store in which the write of `rB`'s vector document raises. -/
def badB : String → Bool := fun k => k == GE.vector_key rB

/-- The store contents after the aborted save: only `rA` written. -/
def c2_partial_store : Store S3Obj :=
  putObj emptyStore (GE.vector_key rA) (S3Obj.vecGE (GE.vector_doc rA))

/-- C2, counterexample: saving the batch `[A, B, C]` when the store
rejects the write of `B` does not skip `B` and continue — the uncaught
exception aborts `save_to_s3_vectors` after `A`'s write, so `C` is also
excluded from the written set, contradicting "the run continues to
process and write the remaining templates". -/
theorem C2_counterexample :
    GE.save_to_s3_vectors_fallible badB "T" [rA, rB, rC] emptyStore =
      Except.error c2_partial_store ∧
    c2_partial_store (GE.vector_key rA) =
      some (S3Obj.vecGE (GE.vector_doc rA)) ∧
    c2_partial_store (GE.vector_key rC) = none := by
  refine ⟨rfl, by decide, by decide⟩

/-- Any list helper: a write loop over a batch containing a failing key
ends in an error. -/
theorem put_vectors_loop_error (bad : String → Bool) :
    ∀ (embs : List GE.TemplateResult) (s : Store S3Obj),
      (∃ e, e ∈ embs ∧ bad (GE.vector_key e) = true) →
      ∃ s', GE.put_vectors_loop bad embs s = Except.error s' := by
  intro embs
  induction embs with
  | nil => rintro s ⟨e, he, _⟩; cases he
  | cons e rest ih =>
    rintro s ⟨e₀, he₀, hbad⟩
    by_cases h : bad (GE.vector_key e) = true
    · exact ⟨s, by simp [GE.put_vectors_loop, h]⟩
    · rcases List.mem_cons.mp he₀ with rfl | hmem
      · exact absurd hbad h
      · rcases ih (putObj s (GE.vector_key e) (S3Obj.vecGE (GE.vector_doc e)))
          ⟨e₀, hmem, hbad⟩ with ⟨s', hs'⟩
        exact ⟨s', by simp [GE.put_vectors_loop, h, hs']⟩

/-- C2, amended: failures in the per-template *processing* stage
(missing or malformed metadata, embedding failure) are caught inside
`process_template`, the failed template alone is excluded, and the rest
of the batch is still processed — but a *store write* failure in the
save phase is not caught per template: the first failing `put_object`
aborts `save_to_s3_vectors`, so templates after the failing one are not
written either. -/
theorem C2_amended :
    (∀ (embed : String → Except String (List Int))
       (pre post : List (GE.GECtx × Except String GE.GEMetadata))
       (it : GE.GECtx × Except String GE.GEMetadata),
      GE.process_template embed it.1 it.2 = none →
      GE.process_all_templates embed (pre ++ it :: post) =
        GE.process_all_templates embed pre ++
          GE.process_all_templates embed post) ∧
    (∀ (bad : String → Bool) (now : String) (embs : List GE.TemplateResult)
       (s : Store S3Obj),
      (∃ e, e ∈ embs ∧ bad (GE.vector_key e) = true) →
      ∃ s', GE.save_to_s3_vectors_fallible bad now embs s =
        Except.error s') := by
  constructor
  · intro embed pre post it hnone
    simp [GE.process_all_templates, List.filterMap_append, List.filterMap_cons, hnone]
  · intro bad now embs s hex
    rcases put_vectors_loop_error bad embs s hex with ⟨s', hs'⟩
    exact ⟨s', by simp [GE.save_to_s3_vectors_fallible, hs']⟩

/-- A malformed-metadata load context and two healthy neighbours. -/
def mA : GE.GEMetadata := { template_id := some "mA-t", industry := some "finance" }

def mC : GE.GEMetadata := { template_id := some "mC-t", industry := some "retail" }

def ctxA : GE.GECtx := { dirName := "a", parentName := "finance", now := "T" }

def ctxB : GE.GECtx := { dirName := "b", parentName := "finance", now := "T" }

def ctxC : GE.GECtx := { dirName := "c", parentName := "retail", now := "T" }

/-- C2, witness: a malformed template in the middle of a batch is
dropped while both neighbours are still processed, and a failing store
write aborts the save of `[A, B, C]` at `B`. -/
theorem C2_amended_witness :
    GE.process_all_templates embedOk
        ([(ctxA, Except.ok mA)] ++ (ctxB, Except.error "decode") ::
          [(ctxC, Except.ok mC)]) =
      GE.process_all_templates embedOk [(ctxA, Except.ok mA)] ++
        GE.process_all_templates embedOk [(ctxC, Except.ok mC)] ∧
    ∃ s', GE.save_to_s3_vectors_fallible badB "T" [rA, rB, rC] emptyStore =
      Except.error s' :=
  ⟨C2_amended.1 embedOk [(ctxA, Except.ok mA)] [(ctxC, Except.ok mC)]
      (ctxB, Except.error "decode") rfl,
   C2_amended.2 badB "T" [rA, rB, rC] emptyStore ⟨rB, by decide, by decide⟩⟩

/-! ### C5 — idempotent re-indexing -/

/-- A source metadata record without its own `created_at`. -/
def c5_metadata : GE.GEMetadata :=
  { template_id := some "t1", industry := some "finance",
    cta_intent := some "contact", design_style := some "modern" }

/-- The same template discovered in a first run... -/
def c5_ctx1 : GE.GECtx :=
  { parentName := "finance", dirName := "t1", now := "2026-01-01T00:00:00" }

/-- ...and in a second run a day later. -/
def c5_ctx2 : GE.GECtx :=
  { parentName := "finance", dirName := "t1", now := "2026-01-02T00:00:00" }

/-- C5, counterexample: two runs over the unchanged record (same
provider) write to the same DynamoDB key but with *different* item
values — `updated_at` (and the defaulted `created_at`) are stamped with
each run's `utcnow()`, so the stored metadata is not byte-identical
across runs. -/
theorem C5_counterexample :
    (GE.process_template embedOk c5_ctx1 (Except.ok c5_metadata)).map
        GE.dynamo_item ≠
      (GE.process_template embedOk c5_ctx2 (Except.ok c5_metadata)).map
        GE.dynamo_item ∧
    (GE.process_template embedOk c5_ctx1 (Except.ok c5_metadata)).map
        (fun r => "TEMPLATE#" ++ r.template_id) =
      (GE.process_template embedOk c5_ctx2 (Except.ok c5_metadata)).map
        (fun r => "TEMPLATE#" ++ r.template_id) := by
  exact ⟨by decide, by decide⟩

/-- C5, amended: re-indexing is a pure upsert at keys derived
deterministically from `template_id` — both stores hold at most one
record per id and re-saving the same batch leaves both stores unchanged,
and the stored *vector* documents are identical across runs (they carry
no timestamps) — but the DynamoDB metadata items are only identical up
to the `updated_at`/defaulted-`created_at` timestamps, which take each
run's wall-clock value. -/
theorem C5_amended :
    (∀ e₁ e₂ : GE.TemplateResult, e₁.template_id = e₂.template_id →
      GE.vector_key e₁ = GE.vector_key e₂ ∧
      "TEMPLATE#" ++ e₁.template_id = "TEMPLATE#" ++ e₂.template_id) ∧
    (∀ (now : String) (embs : List GE.TemplateResult) (s : Store S3Obj),
      GE.save_to_s3_vectors now embs (GE.save_to_s3_vectors now embs s) =
        GE.save_to_s3_vectors now embs s) ∧
    (∀ (embs : List GE.TemplateResult) (s : Store GE.DynamoItem),
      GE.save_to_dynamodb embs (GE.save_to_dynamodb embs s) =
        GE.save_to_dynamodb embs s) ∧
    (∀ (embed : String → Except String (List Int)) (m : GE.GEMetadata)
       (region env parent dir now₁ now₂ : String),
      (GE.process_template embed ⟨region, env, parent, dir, now₁⟩
          (Except.ok m)).map GE.vector_doc =
        (GE.process_template embed ⟨region, env, parent, dir, now₂⟩
          (Except.ok m)).map GE.vector_doc) := by
  refine ⟨?_, ?_, ?_, ?_⟩
  · intro e₁ e₂ h
    exact ⟨by simp [GE.vector_key, h], by rw [h]⟩
  · intro now embs s
    funext k
    simp only [GE.save_to_s3_vectors]
    by_cases hk : k = GE.index_key
    · simp [putObj, hk]
    · simp only [putObj, if_neg hk]
      rw [congrFun (foldPut_eq GE.vector_key
            (fun e => S3Obj.vecGE (GE.vector_doc e)) embs
            (putObj (foldPut GE.vector_key
                (fun e => S3Obj.vecGE (GE.vector_doc e)) embs s)
              GE.index_key (S3Obj.idx (GE.batch_index now embs)))) k]
      cases hlw : lastWrite GE.vector_key
          (fun e => S3Obj.vecGE (GE.vector_doc e)) embs k with
      | some v =>
        rw [congrFun (foldPut_eq GE.vector_key
          (fun e => S3Obj.vecGE (GE.vector_doc e)) embs s) k, hlw]
      | none =>
        simp only [putObj, if_neg hk]
  · intro embs s
    exact foldPut_idem _ _ embs s
  · intro embed m region env parent dir now₁ now₂
    simp only [GE.process_template]
    cases GE.generate_embedding embed (GE.build_embedding_text m) with
    | error e => rfl
    | ok v => rfl

/-- C5, witness: the amended claim at a one-element batch and at the
concrete record of the two-run scenario. -/
theorem C5_amended_witness :
    (GE.vector_key rA = GE.vector_key rA ∧
      "TEMPLATE#" ++ rA.template_id = "TEMPLATE#" ++ rA.template_id) ∧
    GE.save_to_s3_vectors "T" [rA] (GE.save_to_s3_vectors "T" [rA] emptyStore) =
      GE.save_to_s3_vectors "T" [rA] emptyStore ∧
    GE.save_to_dynamodb [rA] (GE.save_to_dynamodb [rA] emptyStore) =
      GE.save_to_dynamodb [rA] emptyStore ∧
    (GE.process_template embedOk
        ⟨"eu-west-1", "dev", "finance", "t1", "2026-01-01T00:00:00"⟩
        (Except.ok c5_metadata)).map GE.vector_doc =
      (GE.process_template embedOk
        ⟨"eu-west-1", "dev", "finance", "t1", "2026-01-02T00:00:00"⟩
        (Except.ok c5_metadata)).map GE.vector_doc :=
  ⟨C5_amended.1 rA rA rfl,
   C5_amended.2.1 "T" [rA] emptyStore,
   C5_amended.2.2.1 [rA] emptyStore,
   C5_amended.2.2.2 embedOk c5_metadata "eu-west-1" "dev" "finance" "t1"
     "2026-01-01T00:00:00" "2026-01-02T00:00:00"⟩

/-! ### C7 — the `status` field of written metadata records -/

/-- C7, counterexample: the status value every record is written with is
the uppercase string `"PUBLISHED"`, not `published` as the claim (and
spec) state — a literal mismatch that matters to any reader filtering on
`status == "published"` or on the `GSI1SK` prefix `STATUS#published#`. -/
theorem C7_counterexample :
    (GE.process_template embedOk c5_ctx1 (Except.ok c5_metadata)).map
        (fun r => (GE.dynamo_item r).status) = some "PUBLISHED" ∧
    ("PUBLISHED" : String) ≠ "published" := by
  exact ⟨by decide, by decide⟩

/-- C7, amended: every metadata record written by a successful indexing
run carries the status value `"PUBLISHED"` (uppercase) — the only status
value either script produces — and the field is always set on a
successfully indexed record (in the model it is a total field of the
written item). -/
theorem C7_amended :
    (∀ (embed : String → Except String (List Int))
       (items : List (GE.GECtx × Except String GE.GEMetadata))
       (r : GE.TemplateResult),
      r ∈ GE.process_all_templates embed items →
      (GE.dynamo_item r).status = "PUBLISHED") ∧
    (∀ (embed : String → Except String (List Int))
       (region now now' : String) (sites : List PET.SiteEntry)
       (r : PET.PETResult),
      r ∈ PET.process_migrated_templates embed region now sites →
      (PET.dynamo_item now' r).status = "PUBLISHED") := by
  constructor
  · intro embed items r hr
    obtain ⟨it, hit, hproc⟩ := List.mem_filterMap.mp hr
    obtain ⟨ctx, load⟩ := it
    cases load with
    | error e => exact absurd hproc (by simp [GE.process_template])
    | ok m =>
      simp only [GE.process_template] at hproc
      split at hproc
      · exact absurd hproc (by simp)
      · rw [Option.some.injEq] at hproc
        subst hproc
        rfl
  · intro embed region now now' sites r hr
    obtain ⟨site, hsite, hproc⟩ := List.mem_filterMap.mp hr
    simp only [PET.process_migrated_one] at hproc
    split at hproc
    · exact absurd hproc (by simp)
    · split at hproc
      · exact absurd hproc (by simp)
      · rw [Option.some.injEq] at hproc
        subst hproc
        rfl

/-- The record processed from `mA`, and the one from the good site. -/
def c7_resultA : GE.TemplateResult :=
  (GE.process_template embedOk ctxA (Except.ok mA)).getD {}

def c7_resultM : PET.PETResult :=
  (PET.process_migrated_one embedOk "eu-west-1" "T" c10_good_site).getD {}

/-- C7, witness: the amended claim at one concrete record per script. -/
theorem C7_amended_witness :
    (GE.dynamo_item c7_resultA).status = "PUBLISHED" ∧
    (PET.dynamo_item "T9" c7_resultM).status = "PUBLISHED" :=
  ⟨C7_amended.1 embedOk [(ctxA, Except.ok mA)] c7_resultA
      (by rw [show GE.process_all_templates embedOk [(ctxA, Except.ok mA)] =
          [c7_resultA] from rfl]
          exact List.mem_singleton.mpr rfl),
   C7_amended.2 embedOk "eu-west-1" "T" "T9" [c10_good_site] c7_resultM
      (by rw [show PET.process_migrated_templates embedOk "eu-west-1" "T"
          [c10_good_site] = [c7_resultM] from rfl]
          exact List.mem_singleton.mpr rfl)⟩
